import Mathlib

/-!
Verification development for the uptrade trading-journal backend.

The backend (server routes plus the in-memory mock store) is shallowly
embedded below. Two store variants are modelled, following the source:

* the in-memory mock store (MockDatabase in mock-db.js) together with the
  route handlers in their mock-mode branches, and
* the relational store: rows of the trades table plus the SQL statements
  the route handlers issue in real-DB mode, with schema drift (optional
  columns possibly absent) made explicit.

JavaScript conventions used by the model:

* object fields that are absent or null are both modelled as none
  (the claims under study never distinguish the two);
* timestamps are naturals/integers counting seconds;
* bcrypt and JWT are external capabilities; they are modelled by
  injective tagging, exactly as their contracts promise.
-/

namespace Uptrade

/-- A user record of the mock store (mock-db.js, initializeDefaultData /
createUser). -/
structure MUser where
  id : String
  name : String
  email : String
  password_hash : String
  role : String
  status : String
  created_at : Nat := 0
  updated_at : Nat := 0
deriving Repr, DecidableEq

/-- A trade object of the mock store. Seeded trades carry both camelCase
and snake_case spellings of several fields (mock-db.js makeTrade), while
trades created by POST /api/trades in mock mode carry only the camelCase
spellings and no id or timestamps; hence every field is optional here.
Absent and null are both {none}. -/
structure MTrade where
  id : Option String := none
  userId : Option String := none
  user_id : Option String := none
  asset : Option String := none
  direction : Option String := none
  entry : Option Int := none
  sl : Option Int := none
  tp : Option Int := none
  exit : Option Int := none
  status : Option String := none
  strategy : Option String := none
  emotion : Option String := none
  plannedR : Option Int := none
  planned_r : Option Int := none
  actualR : Option Int := none
  actual_r : Option Int := none
  displayUnit : Option String := none
  display_unit : Option String := none
  chartBeforeUrl : Option String := none
  chart_before_url : Option String := none
  chartAfterUrl : Option String := none
  chart_after_url : Option String := none
  reviewedBy : Option String := none
  reviewed_by : Option String := none
  created_at : Option Nat := none
  updated_at : Option Nat := none
deriving Repr, DecidableEq

/-- The whole in-memory store: ordered user and trade sequences. -/
structure MockState where
  users : List MUser := []
  trades : List MTrade := []
deriving Repr, DecidableEq

/-- Decoded JWT claims attached to a request (req.user). -/
structure Caller where
  userId : String
  email : String := ""
  role : String
deriving Repr, DecidableEq

/-- Query parameters of the list endpoints. A parameter that is absent, or
present with an empty (hence falsy) string value, is {none}; page and
limit are modelled as natural-number-valued strings. -/
structure Query where
  page : Option Nat := none
  limit : Option Nat := none
  status : Option String := none
  role : Option String := none
deriving Repr, DecidableEq

/-- The pagination object of the envelope response shape. -/
structure Pagination where
  page : Nat
  limit : Nat
  total : Nat
  totalPages : Nat
deriving Repr, DecidableEq

/-- The two response shapes of the list endpoints: a bare array, or an
envelope of items plus pagination. -/
inductive ListResp (α : Type) where
  | bare (xs : List α)
  | paged (items : List α) (pg : Pagination)
deriving Repr, DecidableEq

/-- The item sequence of either response shape. -/
def ListResp.items : ListResp α → List α
  | .bare xs => xs
  | .paged xs _ => xs

/-! ### Small JavaScript helpers -/

/-- JavaScript truthiness test for an optional string (undefined, null and
the empty string are falsy). -/
def falsyS : Option String → Bool
  | none => true
  | some s => s == ""

/-- JavaScript truthiness test for an optional number (undefined, null
and 0 are falsy). -/
def falsyI : Option Int → Bool
  | none => true
  | some i => i == 0

/-- The pattern {v || null}: a falsy value becomes null. -/
def orNullS (v : Option String) : Option String := if falsyS v then none else v

/-- The pattern {v || null} for numbers. -/
def orNullI (v : Option Int) : Option Int := if falsyI v then none else v

/-- Replace the first list element satisfying p (findIndex + assignment). -/
def setFirst (p : α → Bool) (f : α → α) : List α → List α
  | [] => []
  | x :: xs => if p x then f x :: xs else x :: setFirst p f xs

/-- Remove the first list element satisfying p (findIndex + splice). -/
def removeFirst (p : α → Bool) : List α → List α
  | [] => []
  | x :: xs => if p x then xs else x :: removeFirst p xs

/-- JavaScript object spread \x7b...t, ...u\x7d over trade objects: every
field present in u overrides the one of t. -/
def mergeTrade (t u : MTrade) : MTrade where
  id := u.id <|> t.id
  userId := u.userId <|> t.userId
  user_id := u.user_id <|> t.user_id
  asset := u.asset <|> t.asset
  direction := u.direction <|> t.direction
  entry := u.entry <|> t.entry
  sl := u.sl <|> t.sl
  tp := u.tp <|> t.tp
  exit := u.exit <|> t.exit
  status := u.status <|> t.status
  strategy := u.strategy <|> t.strategy
  emotion := u.emotion <|> t.emotion
  plannedR := u.plannedR <|> t.plannedR
  planned_r := u.planned_r <|> t.planned_r
  actualR := u.actualR <|> t.actualR
  actual_r := u.actual_r <|> t.actual_r
  displayUnit := u.displayUnit <|> t.displayUnit
  display_unit := u.display_unit <|> t.display_unit
  chartBeforeUrl := u.chartBeforeUrl <|> t.chartBeforeUrl
  chart_before_url := u.chart_before_url <|> t.chart_before_url
  chartAfterUrl := u.chartAfterUrl <|> t.chartAfterUrl
  chart_after_url := u.chart_after_url <|> t.chart_after_url
  reviewedBy := u.reviewedBy <|> t.reviewedBy
  reviewed_by := u.reviewed_by <|> t.reviewed_by
  created_at := u.created_at <|> t.created_at
  updated_at := u.updated_at <|> t.updated_at

/-! ### Pagination (shared shape of GET /api/trades and GET /api/users)

The handlers read page and limit with {parseInt(x) || default}; a missing
parameter, a non-numeric one and 0 all fall back to the default
(page 1, limit 50). The envelope is used when page or limit is present. -/

def effPage (q : Query) : Nat :=
  match q.page with
  | some p => if p = 0 then 1 else p
  | none => 1

def effLimit (q : Query) : Nat :=
  match q.limit with
  | some l => if l = 0 then 50 else l
  | none => 50

def usePagination (q : Query) : Bool := q.page.isSome || q.limit.isSome

/-- Response shaping shared by the list endpoints: no pagination
parameter gives the bare array; otherwise slice(offset, offset+limit)
with offset = (page-1)*limit, and totalPages = Math.ceil(total/limit)
(the natural ceiling (total+limit-1)/limit, since limit is positive). -/
def paginate (q : Query) (xs : List α) : ListResp α :=
  if usePagination q then
    let page := effPage q
    let limit := effLimit q
    let offset := (page - 1) * limit
    .paged ((xs.drop offset).take limit)
      { page := page, limit := limit, total := xs.length,
        totalPages := (xs.length + limit - 1) / limit }
  else .bare xs

/-! ### Credential capability (bcrypt, JWT)

bcrypt and jsonwebtoken are external capabilities (spec section 6); they
are modelled by tagging, which realizes exactly the contract
verify(p, hash(p)) = true and verify(p, h) = false otherwise, and a token
that carries its claims, its expiry and the secret it was signed with. -/

def bhash (p : String) : String := "bcrypt$" ++ p

def bverify (p h : String) : Bool := h == bhash p

/-- A signed session token. Its payload is exactly the claims object
passed to jwt.sign plus the expiry; sig stands for the HMAC over the
signing secret. -/
structure Token where
  userId : String
  email : String
  role : String
  exp : Nat
  sig : Nat
deriving Repr, DecidableEq

/-- generateToken (index.js): jwt.sign(\x7buserId, email, role\x7d,
JWT_SECRET, \x7bexpiresIn: 7d\x7d). -/
def generateToken (userId email role : String) (now : Nat) (secret : Nat) : Token :=
  { userId := userId, email := email, role := role,
    exp := now + 7 * 86400, sig := secret }

/-- jwt.verify: the decoded claims when the signature matches the secret
and the token is not expired, otherwise an error. -/
def verifyTokenClaims (t : Token) (now : Nat) (secret : Nat) : Option Caller :=
  if t.sig == secret && now < t.exp then
    some { userId := t.userId, email := t.email, role := t.role }
  else none

/-- The verifyToken middleware guarding every protected route: it decodes
the bearer token with jwt.verify and assigns req.user from the decoded
claims. The store (first argument) is in scope in the handler module but
the middleware body never reads it. -/
def authenticateRequest (_st : MockState) (t : Token) (now : Nat) (secret : Nat) :
    Option Caller :=
  verifyTokenClaims t now secret

/-! ### Mock store operations (MockDatabase) -/

/-- MockDatabase.findUserByEmail: first user with that email. -/
def mockFindUserByEmail (st : MockState) (email : String) : Option MUser :=
  st.users.find? (·.email == email)

/-- MockDatabase.getTradeById / findTradeById: first trade with that id. -/
def mockFindTradeById (st : MockState) (id : String) : Option MTrade :=
  st.trades.find? (·.id == some id)

/-- The PATCH /api/users/:id handler restricted to a role change: the
admin body \x7brole\x7d merged into the stored user by
MockDatabase.updateUser. -/
def mockUpdateUserRole (st : MockState) (id : String) (newRole : String) : MockState :=
  { st with users := setFirst (·.id == id) (fun u => { u with role := newRole }) st.users }

/-- MockDatabase.deleteUser: splice out the first user with that id. -/
def mockDeleteUser (st : MockState) (id : String) : MockState :=
  { st with users := removeFirst (·.id == id) st.users }

/-! ### POST /api/auth/login

Both the mock-mode and the real-DB branch run the same logic over the
user collection: first user with the email (Array.find, respectively
SELECT ... WHERE email = ? taking row 0), then bcrypt.compare, then the
pending gate, then token issuance. -/

/-- The login response: HTTP status, the error code when failing, the
token when succeeding, and the minimal identity (id, email, name)
returned by the pending and success branches. -/
structure LoginResult where
  status : Nat
  code : Option String
  token : Option Token
  identity : Option (String × String × String)
deriving Repr, DecidableEq

def login (users : List MUser) (email password : String) (now : Nat) (secret : Nat) :
    LoginResult :=
  if email == "" || password == "" then
    { status := 400, code := none, token := none, identity := none }
  else
    match users.find? (·.email == email) with
    | none =>
      { status := 401, code := some "auth/user-not-found", token := none, identity := none }
    | some u =>
      if !(bverify password u.password_hash) then
        { status := 401, code := some "auth/wrong-password", token := none, identity := none }
      else if u.status == "pending" then
        { status := 403, code := some "auth/pending-approval", token := none,
          identity := some (u.id, u.email, u.name) }
      else
        { status := 200, code := none,
          token := some (generateToken u.id u.email u.role now secret),
          identity := some (u.id, u.email, u.name) }

/-! ### GET /api/trades and GET /api/users (mock mode) -/

/-- The filtered trade sequence of GET /api/trades in mock mode: all
trades, restricted to the callers own when the role is student (matching
on the userId field), then restricted by the optional status filter. -/
def visibleTrades (st : MockState) (caller : Caller) (q : Query) : List MTrade :=
  let ts := st.trades
  let ts := if caller.role == "student" then ts.filter (·.userId == some caller.userId) else ts
  match q.status with
  | some s => if s == "" then ts else ts.filter (·.status == some s)
  | none => ts

/-- GET /api/trades, mock mode: filter, then shape the response. -/
def mockGetTrades (st : MockState) (caller : Caller) (q : Query) : ListResp MTrade :=
  paginate q (visibleTrades st caller q)

/-- The filtered user sequence of GET /api/users in mock mode. -/
def visibleUsers (st : MockState) (q : Query) : List MUser :=
  let us := st.users
  let us := match q.status with
    | some s => if s == "" then us else us.filter (·.status == s)
    | none => us
  match q.role with
  | some r => if r == "" then us else us.filter (·.role == r)
  | none => us

/-- GET /api/users, mock mode, behind the admin/coach gate. -/
inductive UsersResp where
  | forbidden
  | ok (r : ListResp MUser)
deriving Repr, DecidableEq

def mockGetUsers (st : MockState) (caller : Caller) (q : Query) : UsersResp :=
  if !(caller.role == "admin" || caller.role == "coach") then .forbidden
  else .ok (paginate q (visibleUsers st q))

/-! ### POST /api/trades (mock mode) -/

/-- The JSON request body of POST /api/trades, every field optional. The
handler accepts both snake_case and camelCase spellings of several
fields, and ignores any user_id/userId the body carries. -/
structure TradeBody where
  asset : Option String := none
  direction : Option String := none
  entry : Option Int := none
  sl : Option Int := none
  tp : Option Int := none
  exit : Option Int := none
  status : Option String := none
  strategy : Option String := none
  emotion : Option String := none
  reviewed_by : Option String := none
  planned_r : Option Int := none
  plannedR : Option Int := none
  actual_r : Option Int := none
  actualR : Option Int := none
  display_unit : Option String := none
  displayUnit : Option String := none
  chart_before_url : Option String := none
  chartBeforeUrl : Option String := none
  chart_after_url : Option String := none
  chartAfterUrl : Option String := none
  user_id : Option String := none
  userId : Option String := none
deriving Repr, DecidableEq

/-- Result of POST /api/trades in mock mode: status, response trade, new
store. -/
structure MPostResult where
  status : Nat
  trade : Option MTrade
  st : MockState
deriving Repr, DecidableEq

/-- POST /api/trades, mock mode: students only; the alias coalescing
(x ?? y ?? null) is Option.orElse; required fields asset, direction,
entry, sl are gated by JavaScript truthiness; the object handed to
MockDatabase.createTrade is pushed as is, with userId from the session
and with no id and no timestamps. -/
def mockPostTrade (st : MockState) (caller : Caller) (b : TradeBody) : MPostResult :=
  if caller.role != "student" then { status := 403, trade := none, st := st }
  else
    let planned_r := b.planned_r <|> b.plannedR
    let actual_r := b.actual_r <|> b.actualR
    let display_unit := (b.display_unit <|> b.displayUnit).getD "pips"
    let chart_before_url := b.chart_before_url <|> b.chartBeforeUrl
    let chart_after_url := b.chart_after_url <|> b.chartAfterUrl
    if falsyS b.asset || falsyS b.direction || falsyI b.entry || falsyI b.sl then
      { status := 400, trade := none, st := st }
    else
      let t : MTrade :=
        { userId := some caller.userId
          asset := b.asset
          direction := b.direction
          entry := b.entry
          sl := b.sl
          tp := orNullI b.tp
          exit := orNullI b.exit
          status := some ((orNullS b.status).getD "pending")
          strategy := orNullS b.strategy
          emotion := orNullS b.emotion
          plannedR := planned_r
          actualR := actual_r
          displayUnit := some display_unit
          chartBeforeUrl := chart_before_url
          chartAfterUrl := chart_after_url
          reviewedBy := orNullS b.reviewed_by }
      { status := 201, trade := some t, st := { st with trades := st.trades ++ [t] } }

/-! ### PATCH and DELETE /api/trades/:id (mock mode) -/

/-- Result of a trade mutation in mock mode. -/
structure MMutResult where
  status : Nat
  trade : Option MTrade
  st : MockState
deriving Repr, DecidableEq

/-- PATCH /api/trades/:id, mock mode: re-fetch (404 when absent),
ownership gate for students (403), then MockDatabase.updateTrade merges
the client body verbatim into the stored trade. -/
def mockPatchTrade (st : MockState) (caller : Caller) (id : String) (u : MTrade) :
    MMutResult :=
  match st.trades.find? (·.id == some id) with
  | none => { status := 404, trade := none, st := st }
  | some existing =>
    if caller.role == "student" && existing.userId != some caller.userId then
      { status := 403, trade := none, st := st }
    else
      let t := mergeTrade existing u
      { status := 200, trade := some t,
        st := { st with trades := setFirst (·.id == some id) (fun _ => t) st.trades } }

/-- DELETE /api/trades/:id, mock mode: re-fetch (404), ownership gate
(403), then MockDatabase.deleteTrade splices the trade out. -/
def mockDeleteTrade (st : MockState) (caller : Caller) (id : String) : MMutResult :=
  match st.trades.find? (·.id == some id) with
  | none => { status := 404, trade := none, st := st }
  | some existing =>
    if caller.role == "student" && existing.userId != some caller.userId then
      { status := 403, trade := none, st := st }
    else
      { status := 200, trade := none,
        st := { st with trades := removeFirst (·.id == some id) st.trades } }

/-! ### Relational store model

A trades row holds one SQL value per column; schema drift is a flag per
optional column (reviewed_by, chart_before_url, chart_after_url), the
base columns always exist. Referencing a column absent from the live
schema raises ER_BAD_FIELD_ERROR, which the handlers catch. -/

/-- A SQL cell value. -/
inductive SVal where
  | s (v : String)
  | n (v : Int)
  | null
deriving Repr, DecidableEq

/-- One row of the trades table (columns as in the full INSERT of
POST /api/trades). -/
structure RTrade where
  id : SVal := .null
  user_id : SVal := .null
  asset : SVal := .null
  direction : SVal := .null
  entry : SVal := .null
  sl : SVal := .null
  tp : SVal := .null
  exit : SVal := .null
  status : SVal := .null
  strategy : SVal := .null
  emotion : SVal := .null
  planned_r : SVal := .null
  actual_r : SVal := .null
  display_unit : SVal := .null
  chart_before_url : SVal := .null
  chart_after_url : SVal := .null
  reviewed_by : SVal := .null
  created_at : SVal := .null
  updated_at : SVal := .null
deriving Repr, DecidableEq

/-- Which optional trades columns the live schema has. -/
structure Schema where
  hasChartBefore : Bool
  hasChartAfter : Bool
  hasReviewedBy : Bool
deriving Repr, DecidableEq

/-- The always-present trades columns. The alias in backticks is the
reserved-word-escaped spelling of the exit column used in SET clauses. -/
def baseCols : List String :=
  ["id", "user_id", "asset", "direction", "entry", "sl", "tp", "exit", "`exit`",
   "status", "strategy", "emotion", "planned_r", "actual_r", "display_unit",
   "created_at", "updated_at"]

/-- Whether a column name resolves in the live schema. -/
def colInSchema (sc : Schema) (c : String) : Bool :=
  if c == "chart_before_url" then sc.hasChartBefore
  else if c == "chart_after_url" then sc.hasChartAfter
  else if c == "reviewed_by" then sc.hasReviewedBy
  else baseCols.contains c

/-- Apply one SET assignment column = value to a row. -/
def applyAssign (r : RTrade) (c : String) (v : SVal) : RTrade :=
  if c == "id" then { r with id := v }
  else if c == "user_id" then { r with user_id := v }
  else if c == "asset" then { r with asset := v }
  else if c == "direction" then { r with direction := v }
  else if c == "entry" then { r with entry := v }
  else if c == "sl" then { r with sl := v }
  else if c == "tp" then { r with tp := v }
  else if c == "exit" || c == "`exit`" then { r with exit := v }
  else if c == "status" then { r with status := v }
  else if c == "strategy" then { r with strategy := v }
  else if c == "emotion" then { r with emotion := v }
  else if c == "planned_r" then { r with planned_r := v }
  else if c == "actual_r" then { r with actual_r := v }
  else if c == "display_unit" then { r with display_unit := v }
  else if c == "chart_before_url" then { r with chart_before_url := v }
  else if c == "chart_after_url" then { r with chart_after_url := v }
  else if c == "reviewed_by" then { r with reviewed_by := v }
  else if c == "created_at" then { r with created_at := v }
  else if c == "updated_at" then { r with updated_at := v }
  else r

/-- One SET clause entry of the PATCH handler: translated column name,
value, and the original body key (used by the strip-and-retry filter). -/
structure REntry where
  column : String
  value : SVal
  originalKey : String
deriving Repr, DecidableEq

/-- Apply a SET clause to a row. -/
def applyAssigns (r : RTrade) (es : List REntry) : RTrade :=
  es.foldl (fun acc e => applyAssign acc e.column e.value) r

/-- The declarative field-name translation table of PATCH /api/trades/:id
(public body key to storage column). -/
def columnMap (k : String) : Option String :=
  if k == "userId" then some "user_id"
  else if k == "createdAt" then some "created_at"
  else if k == "updatedAt" then some "updated_at"
  else if k == "plannedR" then some "planned_r"
  else if k == "actualR" then some "actual_r"
  else if k == "displayUnit" then some "display_unit"
  else if k == "exit" then some "`exit`"
  else if k == "date" then some "created_at"
  else if k == "reviewedBy" then some "reviewed_by"
  else if k == "chartBeforeUrl" then some "chart_before_url"
  else if k == "chartAfterUrl" then some "chart_after_url"
  else none

/-- The client-immutable body keys stripped before the UPDATE. -/
def blockedFields : List String :=
  ["createdAt", "created_at", "updatedAt", "updated_at", "userId", "user_id", "id", "date"]

/-- Body keys to SET entries: drop the blocked keys, then translate each
remaining key through the column map (an unmapped key is its own
column). -/
def patchEntries (updates : List (String × SVal)) : List REntry :=
  (updates.filter (fun kv => !(blockedFields.contains kv.1))).map
    (fun kv => { column := (columnMap kv.1).getD kv.1, value := kv.2, originalKey := kv.1 })

/-- The strip-and-retry filter: on ER_BAD_FIELD_ERROR the handler drops
the entries whose original key or column is one of the schema-optional
fields. -/
def stripOptional (es : List REntry) : List REntry :=
  es.filter (fun e =>
    !(["reviewedBy", "reviewed_by", "chartBeforeUrl", "chart_before_url",
       "chartAfterUrl", "chart_after_url"].contains e.originalKey) &&
    !(["reviewed_by", "chart_before_url", "chart_after_url"].contains e.column))

/-- UPDATE trades SET clause, updated_at = now WHERE id = ?: every row
whose id matches receives the assignments plus the updated_at stamp. -/
def doUpdate (rows : List RTrade) (id : String) (es : List REntry) (now : Int) :
    List RTrade :=
  rows.map (fun r =>
    if r.id == SVal.s id then applyAssign (applyAssigns r es) "updated_at" (SVal.n now)
    else r)

/-- Result of PATCH /api/trades/:id in real-DB mode: status, the table
afterwards, how many UPDATE statements were executed, and the SET
columns of the statement that succeeded (empty when none did). -/
structure RPatchResult where
  status : Nat
  rows : List RTrade
  attempts : Nat
  applied : List String
deriving Repr, DecidableEq

/-- PATCH /api/trades/:id, real-DB mode: SELECT user_id WHERE id (404
when no row), student ownership gate (403), strip blocked fields and
translate columns (400 when nothing remains), then UPDATE; on
ER_BAD_FIELD_ERROR strip the schema-optional entries and retry exactly
once (400 when the reduced clause is empty, 500 when the retry fails
too). A failed statement leaves the table unchanged. -/
def realPatchTrade (sc : Schema) (rows : List RTrade) (caller : Caller) (id : String)
    (updates : List (String × SVal)) (now : Int) : RPatchResult :=
  match rows.find? (·.id == SVal.s id) with
  | none => { status := 404, rows := rows, attempts := 0, applied := [] }
  | some tr =>
    if caller.role == "student" && tr.user_id != SVal.s caller.userId then
      { status := 403, rows := rows, attempts := 0, applied := [] }
    else
      if (patchEntries updates).length = 0 then
        { status := 400, rows := rows, attempts := 0, applied := [] }
      else if (patchEntries updates).all (fun e => colInSchema sc e.column) then
        { status := 200, rows := doUpdate rows id (patchEntries updates) now,
          attempts := 1, applied := (patchEntries updates).map (·.column) }
      else
        if (stripOptional (patchEntries updates)).length = 0 then
          { status := 400, rows := rows, attempts := 1, applied := [] }
        else if (stripOptional (patchEntries updates)).all
            (fun e => colInSchema sc e.column) then
          { status := 200,
            rows := doUpdate rows id (stripOptional (patchEntries updates)) now,
            attempts := 2,
            applied := (stripOptional (patchEntries updates)).map (·.column) }
        else
          { status := 500, rows := rows, attempts := 2, applied := [] }

/-- Result of DELETE /api/trades/:id in real-DB mode. -/
structure RDeleteResult where
  status : Nat
  rows : List RTrade
deriving Repr, DecidableEq

/-- DELETE /api/trades/:id, real-DB mode: SELECT user_id WHERE id (404),
student ownership gate (403), then DELETE FROM trades WHERE id = ?. -/
def realDeleteTrade (rows : List RTrade) (caller : Caller) (id : String) :
    RDeleteResult :=
  match rows.find? (·.id == SVal.s id) with
  | none => { status := 404, rows := rows }
  | some tr =>
    if caller.role == "student" && tr.user_id != SVal.s caller.userId then
      { status := 403, rows := rows }
    else
      { status := 200, rows := rows.filter (fun r => !(r.id == SVal.s id)) }

/-- Result of POST /api/trades in real-DB mode. -/
structure RPostResult where
  status : Nat
  rows : List RTrade
  attempts : Nat
deriving Repr, DecidableEq

/-- Optional string body value as SQL cell. -/
def svalS : Option String → SVal
  | none => .null
  | some v => .s v

/-- Optional numeric body value as SQL cell. -/
def svalI : Option Int → SVal
  | none => .null
  | some v => .n v

/-- The row written by the full 19-column INSERT of POST /api/trades in
real-DB mode: id and timestamps generated by the handler, user_id from
the session, the aliases coalesced exactly as in the handler. -/
def insertRow (caller : Caller) (b : TradeBody) (tradeId : String) (now : Int) :
    RTrade :=
  { id := .s tradeId
    user_id := .s caller.userId
    asset := svalS b.asset
    direction := svalS b.direction
    entry := svalI b.entry
    sl := svalI b.sl
    tp := svalI (orNullI b.tp)
    exit := svalI (orNullI b.exit)
    status := .s ((orNullS b.status).getD "pending")
    strategy := svalS (orNullS b.strategy)
    emotion := svalS (orNullS b.emotion)
    planned_r := svalI (b.planned_r <|> b.plannedR)
    actual_r := svalI (b.actual_r <|> b.actualR)
    display_unit := .s ((b.display_unit <|> b.displayUnit).getD "pips")
    chart_before_url := svalS (b.chart_before_url <|> b.chartBeforeUrl)
    chart_after_url := svalS (b.chart_after_url <|> b.chartAfterUrl)
    reviewed_by := svalS (orNullS b.reviewed_by)
    created_at := .n now
    updated_at := .n now }

/-- POST /api/trades, real-DB mode: students only, required-field gate,
then the full 19-column INSERT; when the schema lacks one of the
optional columns that INSERT raises ER_BAD_FIELD_ERROR and the handler
retries once with the reduced column list that omits chart_before_url,
chart_after_url and reviewed_by (those cells are then NULL). -/
def realPostTrade (sc : Schema) (rows : List RTrade) (caller : Caller) (b : TradeBody)
    (tradeId : String) (now : Int) : RPostResult :=
  if caller.role != "student" then { status := 403, rows := rows, attempts := 0 }
  else if falsyS b.asset || falsyS b.direction || falsyI b.entry || falsyI b.sl then
    { status := 400, rows := rows, attempts := 0 }
  else
    if sc.hasChartBefore && sc.hasChartAfter && sc.hasReviewedBy then
      { status := 201, rows := rows ++ [insertRow caller b tradeId now], attempts := 1 }
    else
      { status := 201,
        rows := rows ++ [{ insertRow caller b tradeId now with
          chart_before_url := .null, chart_after_url := .null, reviewed_by := .null }],
        attempts := 2 }

/-! ### GET /api/trades (real-DB mode) -/

/-- Stable insertion sort (the ORDER BY of the SELECT). -/
def insSortBy (le : α → α → Bool) : List α → List α
  | [] => []
  | x :: xs => insertSorted le x (insSortBy le xs)
where
  insertSorted (le : α → α → Bool) (x : α) : List α → List α
    | [] => [x]
    | y :: ys => if le x y then x :: y :: ys else y :: insertSorted le x ys

/-- ORDER BY created_at DESC comparison (numeric cells; any other cell
sorts last, which no claim depends on). -/
def createdDesc (a b : RTrade) : Bool :=
  match a.created_at, b.created_at with
  | .n x, .n y => y ≤ x
  | .n _, _ => true
  | _, _ => false

/-- The WHERE conditions of GET /api/trades, real-DB mode: user_id = ?
for student callers, status = ? when the filter is present, combined with
AND. -/
def realTradeCond (caller : Caller) (q : Query) (r : RTrade) : Bool :=
  (if caller.role == "student" then r.user_id == SVal.s caller.userId else true) &&
  (match q.status with
   | some s => if s == "" then true else r.status == SVal.s s
   | none => true)

/-- GET /api/trades, real-DB mode: filter, ORDER BY created_at DESC, then
the same response shaping (LIMIT ? OFFSET ? is the same slice, and the
COUNT(*) query uses the same conditions). -/
def realGetTrades (rows : List RTrade) (caller : Caller) (q : Query) : ListResp RTrade :=
  paginate q (insSortBy createdDesc (rows.filter (realTradeCond caller q)))

/-! ### The scheduled image cleanup (cron, real-DB mode) -/

/-- The row transformation of the nightly UPDATE: when created_at is at
most NOW() minus 7 days and at least one chart column is non-null, null
both chart columns and stamp updated_at = NOW(); otherwise leave the row
as is (SQL comparisons against NULL are not satisfied). -/
def cleanupRow (now : Int) (r : RTrade) : RTrade :=
  let cond :=
    (match r.created_at with
     | .n t => decide (t ≤ now - 604800)
     | _ => false) &&
    (r.chart_before_url != SVal.null || r.chart_after_url != SVal.null)
  if cond then
    { r with chart_before_url := .null, chart_after_url := .null, updated_at := .n now }
  else r

/-- One invocation of the retention job over the whole table. -/
def imageCleanupJob (now : Int) (rows : List RTrade) : List RTrade :=
  rows.map (cleanupRow now)

/-! ### Shared helper lemmas -/

theorem mem_items_paginate {α : Type} {q : Query} {xs : List α} {a : α}
    (h : a ∈ (paginate q xs).items) : a ∈ xs := by
  unfold paginate at h
  by_cases hp : usePagination q
  · simp only [hp, if_true, ListResp.items] at h
    exact List.drop_subset _ _ (List.take_subset _ _ h)
  · simp only [hp, if_false, Bool.false_eq_true, ListResp.items] at h
    exact h

theorem mem_insertSorted {α : Type} {le : α → α → Bool} {x a : α} {l : List α} :
    a ∈ insSortBy.insertSorted le x l ↔ a = x ∨ a ∈ l := by
  induction l with
  | nil => simp [insSortBy.insertSorted]
  | cons y ys ih =>
    simp only [insSortBy.insertSorted]
    by_cases hle : le x y
    · simp [hle, List.mem_cons]
    · simp only [hle, Bool.false_eq_true, if_false, List.mem_cons, ih]
      tauto

theorem mem_insSortBy {α : Type} {le : α → α → Bool} {l : List α} {a : α} :
    a ∈ insSortBy le l ↔ a ∈ l := by
  induction l with
  | nil => simp [insSortBy]
  | cons x xs ih => simp [insSortBy, mem_insertSorted, ih]

/-- The envelope produced by the shared response shaping, characterized
by its fields: the items are the slice of length limit starting at
(page-1)*limit, total counts the filtered sequence, and totalPages is the
ceiling of total/limit. -/
theorem paginate_spec {α : Type} (q : Query) (xs : List α) (hp : usePagination q = true) :
    ∃ items pg, paginate q xs = .paged items pg ∧
      pg.page = effPage q ∧ pg.limit = effLimit q ∧ pg.total = xs.length ∧
      pg.totalPages = (xs.length + pg.limit - 1) / pg.limit ∧
      items.length = min pg.limit (xs.length - (pg.page - 1) * pg.limit) ∧
      ∀ j : Nat, items[j]? =
        if j < pg.limit then xs[(pg.page - 1) * pg.limit + j]? else none := by
  refine ⟨(xs.drop ((effPage q - 1) * effLimit q)).take (effLimit q),
    { page := effPage q, limit := effLimit q, total := xs.length,
      totalPages := (xs.length + effLimit q - 1) / effLimit q }, ?_, rfl, rfl, rfl, rfl, ?_, ?_⟩
  · unfold paginate
    simp [hp]
  · simp [List.length_take, List.length_drop]
  · intro j
    rw [List.getElem?_take]
    by_cases hj : j < effLimit q
    · simp only [hj, if_true, List.getElem?_drop]
    · simp [hj]

/-! ### C1 -/

/-- C1: every trade returned by GET /api/trades to a student caller, in
either store variant, with or without status filter and pagination, is
owned by the caller: the owner field of each result equals the session
userId, so no other users trade ever appears. -/
theorem trades_list_student_isolation (st : MockState) (rows : List RTrade)
    (caller : Caller) (q : Query) (hrole : caller.role = "student") :
    (∀ t ∈ (mockGetTrades st caller q).items, t.userId = some caller.userId) ∧
    (∀ r ∈ (realGetTrades rows caller q).items, r.user_id = SVal.s caller.userId) := by
  constructor
  · intro t ht
    have hvis : t ∈ visibleTrades st caller q := mem_items_paginate ht
    unfold visibleTrades at hvis
    rw [hrole] at hvis
    simp only [beq_self_eq_true, if_true] at hvis
    have howner : t ∈ st.trades.filter (·.userId == some caller.userId) := by
      rcases hq : q.status with _ | s
      · rw [hq] at hvis; exact hvis
      · rw [hq] at hvis
        by_cases hs : s == ""
        · simp only [hs, if_true] at hvis; exact hvis
        · simp only [hs, Bool.false_eq_true, if_false] at hvis
          exact (List.mem_filter.mp hvis).1
    exact eq_of_beq (List.mem_filter.mp howner).2
  · intro r hr
    have hfil : r ∈ rows.filter (realTradeCond caller q) :=
      mem_insSortBy.mp (mem_items_paginate hr)
    have hcond := (List.mem_filter.mp hfil).2
    unfold realTradeCond at hcond
    rw [hrole] at hcond
    simp only [beq_self_eq_true, if_true, Bool.and_eq_true] at hcond
    exact eq_of_beq hcond.1

def c1trade1 : MTrade := { id := some "t1", userId := some "u1", status := some "pending" }

def c1trade2 : MTrade := { id := some "t2", userId := some "u2", status := some "pending" }

def c1st : MockState := { trades := [c1trade1, c1trade2] }

def c1rows : List RTrade :=
  [{ id := .s "t1", user_id := .s "u1", created_at := .n 1 },
   { id := .s "t2", user_id := .s "u2", created_at := .n 2 }]

def c1caller : Caller := { userId := "u1", role := "student" }

theorem trades_list_student_isolation_witness :
    c1caller.role = "student" ∧
    c1trade1 ∈ (mockGetTrades c1st c1caller {}).items ∧
    c1trade1.userId = some c1caller.userId :=
  ⟨rfl, by decide,
    (trades_list_student_isolation c1st c1rows c1caller {} rfl).1 c1trade1 (by decide)⟩

/-! ### C2 -/

/-- C2: a trade created by a student through POST /api/trades is owned by
the session identity in both store variants: the stored owner field is
the callers userId, and the handler result is invariant under the
user_id/userId values of the request body, so two bodies differing only
there produce the same owner. -/
theorem create_trade_owner_from_session (st : MockState) (sc : Schema)
    (rows : List RTrade) (caller : Caller) (b : TradeBody) (tid : String) (now : Int)
    (hrole : caller.role = "student")
    (hok : (mockPostTrade st caller b).status = 201) :
    (∃ t, (mockPostTrade st caller b).trade = some t ∧ t.userId = some caller.userId) ∧
    (∀ u1 u2 : Option String,
      mockPostTrade st caller { b with user_id := u1, userId := u2 } =
        mockPostTrade st caller b) ∧
    (∀ r ∈ (realPostTrade sc rows caller b tid now).rows,
      r ∈ rows ∨ r.user_id = SVal.s caller.userId) ∧
    (∀ u1 u2 : Option String,
      realPostTrade sc rows caller { b with user_id := u1, userId := u2 } tid now =
        realPostTrade sc rows caller b tid now) := by
  refine ⟨?_, fun u1 u2 => rfl, ?_, fun u1 u2 => rfl⟩
  · unfold mockPostTrade at hok ⊢
    rw [hrole] at hok ⊢
    simp only [bne_self_eq_false, Bool.false_eq_true, if_false] at hok ⊢
    by_cases hv : falsyS b.asset || falsyS b.direction || falsyI b.entry || falsyI b.sl
    · rw [if_pos hv] at hok; cases hok
    · rw [if_neg hv]
      exact ⟨_, rfl, rfl⟩
  · intro r hr
    unfold realPostTrade at hr
    by_cases h1 : caller.role != "student"
    · simp only [h1, if_true] at hr; exact .inl hr
    · simp only [h1, Bool.false_eq_true, if_false] at hr
      by_cases hv : falsyS b.asset || falsyS b.direction || falsyI b.entry || falsyI b.sl
      · rw [if_pos hv] at hr; exact .inl hr
      · rw [if_neg hv] at hr
        by_cases hsc : sc.hasChartBefore && sc.hasChartAfter && sc.hasReviewedBy
        · simp only [hsc, if_true, List.mem_append, List.mem_singleton] at hr
          rcases hr with hr | hr
          · exact .inl hr
          · right; rw [hr]; rfl
        · simp only [hsc, Bool.false_eq_true, if_false, List.mem_append,
            List.mem_singleton] at hr
          rcases hr with hr | hr
          · exact .inl hr
          · right; rw [hr]; rfl

def c2caller : Caller := { userId := "u7", role := "student" }

def c2body : TradeBody :=
  { asset := some "EURUSD", direction := some "long", entry := some 100, sl := some 99,
    user_id := some "attacker", userId := some "attacker" }

theorem create_trade_owner_from_session_witness :
    c2caller.role = "student" ∧
    (mockPostTrade {} c2caller c2body).status = 201 ∧
    (∃ t, (mockPostTrade {} c2caller c2body).trade = some t ∧
      t.userId = some c2caller.userId) :=
  ⟨rfl, by decide,
    (create_trade_owner_from_session {} ⟨true, true, true⟩ [] c2caller c2body "t9" 0
      rfl (by decide)).1⟩

/-! ### C3 -/

/-- C3: the login branches. With email and password supplied: an unknown
email gives 401 auth/user-not-found; a known email with a non-verifying
password gives 401 auth/wrong-password; a verifying password with status
pending gives 403 auth/pending-approval, the body still carrying id,
email and name but no token; otherwise a token embedding the userId,
email and role claims with a 7-day expiry is issued. Consequently a
pending user never obtains a token. -/
theorem login_flow (users : List MUser) (email pw : String) (now secret : Nat)
    (he : (email == "") = false) (hp : (pw == "") = false) :
    (users.find? (·.email == email) = none →
      login users email pw now secret =
        { status := 401, code := some "auth/user-not-found", token := none,
          identity := none }) ∧
    (∀ u, users.find? (·.email == email) = some u →
      (bverify pw u.password_hash = false →
        login users email pw now secret =
          { status := 401, code := some "auth/wrong-password", token := none,
            identity := none }) ∧
      (bverify pw u.password_hash = true → u.status = "pending" →
        login users email pw now secret =
          { status := 403, code := some "auth/pending-approval", token := none,
            identity := some (u.id, u.email, u.name) }) ∧
      (bverify pw u.password_hash = true → u.status ≠ "pending" →
        login users email pw now secret =
          { status := 200, code := none,
            token := some { userId := u.id, email := u.email, role := u.role,
                            exp := now + 7 * 86400, sig := secret },
            identity := some (u.id, u.email, u.name) }) ∧
      (u.status = "pending" → (login users email pw now secret).token = none)) := by
  unfold login
  simp only [he, hp, Bool.or_self, Bool.false_eq_true, if_false]
  constructor
  · intro hnone
    rw [hnone]
  · intro u hu
    rw [hu]
    refine ⟨?_, ?_, ?_, ?_⟩
    · intro hbad
      simp [hbad]
    · intro hgood hpend
      simp [hgood, hpend]
    · intro hgood hnp
      have : (u.status == "pending") = false := by
        simpa using hnp
      simp [hgood, this, generateToken]
    · intro hpend
      by_cases hb : bverify pw u.password_hash
      · simp [hb, hpend]
      · simp [hb]

def c3alice : MUser :=
  { id := "user-a", name := "Alice", email := "alice@example.com",
    password_hash := bhash "alicepw", role := "student", status := "approved" }

def c3bob : MUser :=
  { id := "user-b", name := "Bob", email := "bob@example.com",
    password_hash := bhash "bobpw", role := "student", status := "pending" }

def c3users : List MUser := [c3alice, c3bob]

theorem login_flow_witness :
    ("alice@example.com" == "") = false ∧ ("wrongpw" == "") = false ∧
    bverify "wrongpw" c3alice.password_hash = false ∧
    login c3users "alice@example.com" "wrongpw" 0 42 =
      { status := 401, code := some "auth/wrong-password", token := none,
        identity := none } ∧
    login c3users "bob@example.com" "bobpw" 0 42 =
      { status := 403, code := some "auth/pending-approval", token := none,
        identity := some ("user-b", "bob@example.com", "Bob") } ∧
    login c3users "nobody@example.com" "pw" 0 42 =
      { status := 401, code := some "auth/user-not-found", token := none,
        identity := none } ∧
    login c3users "alice@example.com" "alicepw" 0 42 =
      { status := 200, code := none,
        token := some { userId := "user-a", email := "alice@example.com",
                        role := "student", exp := 7 * 86400, sig := 42 },
        identity := some ("user-a", "alice@example.com", "Alice") } :=
  ⟨rfl, rfl, by decide,
    ((login_flow c3users "alice@example.com" "wrongpw" 0 42 rfl rfl).2
      c3alice (by decide)).1 (by decide),
    (((login_flow c3users "bob@example.com" "bobpw" 0 42 rfl rfl).2
      c3bob (by decide)).2.1 (by decide) rfl),
    (login_flow c3users "nobody@example.com" "pw" 0 42 rfl rfl).1 (by decide),
    (((login_flow c3users "alice@example.com" "alicepw" 0 42 rfl rfl).2
      c3alice (by decide)).2.2.1 (by decide) (by decide))⟩

/-! ### C4 -/

/-- C4: PATCH /api/trades/:id and DELETE /api/trades/:id re-fetch the
target first in both store variants: a missing trade yields 404 and a
student targeting a foreign trade yields 403, and in both failure cases
the store is returned completely unchanged. -/
theorem trade_mutation_guards (st : MockState) (rows : List RTrade) (sc : Schema)
    (caller : Caller) (tid : String) (u : MTrade) (upd : List (String × SVal))
    (now : Int) :
    (st.trades.find? (·.id == some tid) = none →
      mockPatchTrade st caller tid u = { status := 404, trade := none, st := st } ∧
      mockDeleteTrade st caller tid = { status := 404, trade := none, st := st }) ∧
    (∀ tr, st.trades.find? (·.id == some tid) = some tr →
      caller.role = "student" → tr.userId ≠ some caller.userId →
      mockPatchTrade st caller tid u = { status := 403, trade := none, st := st } ∧
      mockDeleteTrade st caller tid = { status := 403, trade := none, st := st }) ∧
    (rows.find? (·.id == SVal.s tid) = none →
      realPatchTrade sc rows caller tid upd now =
        { status := 404, rows := rows, attempts := 0, applied := [] } ∧
      realDeleteTrade rows caller tid = { status := 404, rows := rows }) ∧
    (∀ tr, rows.find? (·.id == SVal.s tid) = some tr →
      caller.role = "student" → tr.user_id ≠ SVal.s caller.userId →
      realPatchTrade sc rows caller tid upd now =
        { status := 403, rows := rows, attempts := 0, applied := [] } ∧
      realDeleteTrade rows caller tid = { status := 403, rows := rows }) := by
  refine ⟨?_, ?_, ?_, ?_⟩
  · intro hnone
    unfold mockPatchTrade mockDeleteTrade
    rw [hnone]
    exact ⟨rfl, rfl⟩
  · intro tr htr hrole hown
    unfold mockPatchTrade mockDeleteTrade
    rw [htr, hrole]
    have : (tr.userId != some caller.userId) = true := by
      simpa using hown
    simp [this]
  · intro hnone
    unfold realPatchTrade realDeleteTrade
    rw [hnone]
    exact ⟨rfl, rfl⟩
  · intro tr htr hrole hown
    unfold realPatchTrade realDeleteTrade
    rw [htr, hrole]
    have : (tr.user_id != SVal.s caller.userId) = true := by
      simpa using hown
    simp [this]

def c4st : MockState := { trades := [{ id := some "t1", userId := some "u1" }] }

def c4rows : List RTrade := [{ id := .s "t1", user_id := .s "u1" }]

def c4caller : Caller := { userId := "u2", role := "student" }

theorem trade_mutation_guards_witness :
    c4st.trades.find? (·.id == some "missing") = none ∧
    mockPatchTrade c4st c4caller "missing" {} =
      { status := 404, trade := none, st := c4st } ∧
    mockDeleteTrade c4st c4caller "missing" =
      { status := 404, trade := none, st := c4st } ∧
    c4caller.role = "student" ∧
    mockPatchTrade c4st c4caller "t1" {} =
      { status := 403, trade := none, st := c4st } ∧
    realDeleteTrade c4rows c4caller "t1" = { status := 403, rows := c4rows } :=
  ⟨by decide,
    ((trade_mutation_guards c4st c4rows ⟨true, true, true⟩ c4caller "missing" {} [] 0).1
      (by decide)).1,
    ((trade_mutation_guards c4st c4rows ⟨true, true, true⟩ c4caller "missing" {} [] 0).1
      (by decide)).2,
    rfl,
    ((trade_mutation_guards c4st c4rows ⟨true, true, true⟩ c4caller "t1" {} [] 0).2.1
      { id := some "t1", userId := some "u1" } (by decide) rfl (by decide)).1,
    ((trade_mutation_guards c4st c4rows ⟨true, true, true⟩ c4caller "t1" {} [] 0).2.2.2
      { id := .s "t1", user_id := .s "u1" } (by decide) rfl (by decide)).2⟩

/-! ### C5 -/

def c5trade : MTrade := { id := some "t1", userId := some "u1" }

def c5st : MockState := { trades := [c5trade] }

def c5caller : Caller := { userId := "u1", role := "student" }

def c5upd : MTrade := { userId := some "u2" }

/-- C5 counterexample: in the in-memory variant the PATCH body is merged
verbatim, so a client update carrying userId rewrites the owner of the
stored trade; the claim that updating never changes the owner in both
store variants is false. -/
theorem mock_update_transfers_ownership_cx :
    c5st.trades.map (·.userId) = [some "u1"] ∧
    (mockPatchTrade c5st c5caller "t1" c5upd).status = 200 ∧
    (mockPatchTrade c5st c5caller "t1" c5upd).st.trades.map (·.userId) = [some "u2"] := by
  decide

/-- The three storage columns the claim calls immutable. -/
def isImmutableCol (c : String) : Bool :=
  c == "id" || c == "user_id" || c == "created_at"

theorem mapped_col_not_immutable (k : String)
    (hk : blockedFields.contains k = false) :
    isImmutableCol ((columnMap k).getD k) = false := by
  unfold columnMap
  by_cases h1 : k == "userId"
  · rw [eq_of_beq h1] at hk; exact absurd hk (by decide)
  · rw [if_neg (by simpa using h1)]
    by_cases h2 : k == "createdAt"
    · rw [eq_of_beq h2] at hk; exact absurd hk (by decide)
    · rw [if_neg (by simpa using h2)]
      by_cases h3 : k == "updatedAt"
      · rw [eq_of_beq h3] at hk; exact absurd hk (by decide)
      · rw [if_neg (by simpa using h3)]
        by_cases h4 : k == "plannedR"
        · rw [eq_of_beq h4]; decide
        · rw [if_neg (by simpa using h4)]
          by_cases h5 : k == "actualR"
          · rw [eq_of_beq h5]; decide
          · rw [if_neg (by simpa using h5)]
            by_cases h6 : k == "displayUnit"
            · rw [eq_of_beq h6]; decide
            · rw [if_neg (by simpa using h6)]
              by_cases h7 : k == "exit"
              · rw [eq_of_beq h7]; decide
              · rw [if_neg (by simpa using h7)]
                by_cases h8 : k == "date"
                · rw [eq_of_beq h8] at hk; exact absurd hk (by decide)
                · rw [if_neg (by simpa using h8)]
                  by_cases h9 : k == "reviewedBy"
                  · rw [eq_of_beq h9]; decide
                  · rw [if_neg (by simpa using h9)]
                    by_cases h10 : k == "chartBeforeUrl"
                    · rw [eq_of_beq h10]; decide
                    · rw [if_neg (by simpa using h10)]
                      by_cases h11 : k == "chartAfterUrl"
                      · rw [eq_of_beq h11]; decide
                      · rw [if_neg (by simpa using h11)]
                        simp only [Option.getD_none]
                        -- the unmapped key is its own column; each immutable
                        -- column name is itself a blocked field
                        by_cases hidk : k == "id"
                        · rw [eq_of_beq hidk] at hk; exact absurd hk (by decide)
                        · by_cases huid : k == "user_id"
                          · rw [eq_of_beq huid] at hk; exact absurd hk (by decide)
                          · by_cases hca : k == "created_at"
                            · rw [eq_of_beq hca] at hk; exact absurd hk (by decide)
                            · simp only [Bool.not_eq_true] at hidk huid hca
                              simp only [isImmutableCol, hidk, huid, hca,
                                Bool.or_self]

theorem patchEntries_col_not_immutable (upd : List (String × SVal)) :
    ∀ e ∈ patchEntries upd, isImmutableCol e.column = false := by
  intro e he
  unfold patchEntries at he
  rcases List.mem_map.mp he with ⟨kv, hkv, hmk⟩
  have hblocked : blockedFields.contains kv.1 = false := by
    have := (List.mem_filter.mp hkv).2
    simpa using this
  rw [← hmk]
  exact mapped_col_not_immutable kv.1 hblocked

theorem applyAssign_preserves_immutables (r : RTrade) (c : String) (v : SVal)
    (hc : isImmutableCol c = false) :
    (applyAssign r c v).id = r.id ∧ (applyAssign r c v).user_id = r.user_id ∧
    (applyAssign r c v).created_at = r.created_at := by
  simp only [isImmutableCol, Bool.or_eq_false_iff] at hc
  obtain ⟨⟨hid, huid⟩, hca⟩ := hc
  refine ⟨?_, ?_, ?_⟩
  · simp only [applyAssign, hid, huid, hca, Bool.false_eq_true, if_false,
      apply_ite RTrade.id, ite_self]
  · simp only [applyAssign, hid, huid, hca, Bool.false_eq_true, if_false,
      apply_ite RTrade.user_id, ite_self]
  · simp only [applyAssign, hid, huid, hca, Bool.false_eq_true, if_false,
      apply_ite RTrade.created_at, ite_self]

theorem applyAssigns_preserves_immutables (es : List REntry) (r : RTrade)
    (hes : ∀ e ∈ es, isImmutableCol e.column = false) :
    (applyAssigns r es).id = r.id ∧ (applyAssigns r es).user_id = r.user_id ∧
    (applyAssigns r es).created_at = r.created_at := by
  induction es generalizing r with
  | nil => exact ⟨rfl, rfl, rfl⟩
  | cons e es ih =>
    have he := hes e (List.mem_cons_self e es)
    have hstep := applyAssign_preserves_immutables r e.column e.value he
    have htail := ih (applyAssign r e.column e.value)
      (fun x hx => hes x (List.mem_cons_of_mem e hx))
    unfold applyAssigns at htail ⊢
    simp only [List.foldl_cons]
    exact ⟨htail.1.trans hstep.1, htail.2.1.trans hstep.2.1,
      htail.2.2.trans hstep.2.2⟩

theorem doUpdate_preserves_immutables (rows : List RTrade) (id : String)
    (es : List REntry) (now : Int) (i : Nat) (r : RTrade)
    (hes : ∀ e ∈ es, isImmutableCol e.column = false)
    (hr : rows[i]? = some r) :
    ∃ r2, (doUpdate rows id es now)[i]? = some r2 ∧
      r2.id = r.id ∧ r2.user_id = r.user_id ∧ r2.created_at = r.created_at := by
  unfold doUpdate
  rw [List.getElem?_map, hr]
  simp only [Option.map_some']
  by_cases hmatch : r.id == SVal.s id
  · have has := applyAssigns_preserves_immutables es r hes
    have hup := applyAssign_preserves_immutables (applyAssigns r es) "updated_at"
      (SVal.n now) (by decide)
    refine ⟨applyAssign (applyAssigns r es) "updated_at" (SVal.n now), ?_, ?_, ?_, ?_⟩
    · simp [hmatch]
    · rw [hup.1, has.1]
    · rw [hup.2.1, has.2.1]
    · rw [hup.2.2, has.2.2]
  · exact ⟨r, by simp [hmatch], rfl, rfl, rfl⟩

/-- C5, amended: in the relational store variant a trade update never
changes id, owner or created_at: the blocked immutable fields and their
aliases are stripped and the translated SET columns avoid those three
storage columns, so every row of the table keeps them across
PATCH /api/trades/:id (in the in-memory variant, by the counterexample,
the verbatim merge can change them). -/
theorem relational_update_preserves_immutables (sc : Schema) (rows : List RTrade)
    (caller : Caller) (tid : String) (upd : List (String × SVal)) (now : Int)
    (i : Nat) (r : RTrade) (hr : rows[i]? = some r) :
    ∃ r2, ((realPatchTrade sc rows caller tid upd now).rows)[i]? = some r2 ∧
      r2.id = r.id ∧ r2.user_id = r.user_id ∧ r2.created_at = r.created_at := by
  have hentries := patchEntries_col_not_immutable upd
  have hstripped : ∀ e ∈ stripOptional (patchEntries upd), isImmutableCol e.column = false :=
    fun e he => hentries e (List.mem_filter.mp he).1
  unfold realPatchTrade
  rcases hfind : rows.find? (·.id == SVal.s tid) with _ | tr
  · simp only [hfind]
    exact ⟨r, hr, rfl, rfl, rfl⟩
  · simp only [hfind]
    by_cases hown : caller.role == "student" && tr.user_id != SVal.s caller.userId
    · simp only [hown, if_true]
      exact ⟨r, hr, rfl, rfl, rfl⟩
    · simp only [hown, Bool.false_eq_true, if_false]
      by_cases hlen : (patchEntries upd).length = 0
      · simp only [hlen, if_true]
        exact ⟨r, hr, rfl, rfl, rfl⟩
      · simp only [hlen, if_false]
        by_cases hall : (patchEntries upd).all (fun e => colInSchema sc e.column)
        · simp only [hall, if_true]
          exact doUpdate_preserves_immutables rows tid (patchEntries upd) now i r
            hentries hr
        · simp only [hall, Bool.false_eq_true, if_false]
          by_cases hslen : (stripOptional (patchEntries upd)).length = 0
          · simp only [hslen, if_true]
            exact ⟨r, hr, rfl, rfl, rfl⟩
          · simp only [hslen, if_false]
            by_cases hsall :
                (stripOptional (patchEntries upd)).all (fun e => colInSchema sc e.column)
            · simp only [hsall, if_true]
              exact doUpdate_preserves_immutables rows tid
                (stripOptional (patchEntries upd)) now i r hstripped hr
            · simp only [hsall, Bool.false_eq_true, if_false]
              exact ⟨r, hr, rfl, rfl, rfl⟩

def c5rrow : RTrade :=
  { id := .s "t1", user_id := .s "u1", asset := .s "EURUSD", created_at := .n 5 }

def c5rupd : List (String × SVal) :=
  [("userId", .s "u2"), ("id", .s "t9"), ("date", .n 99), ("asset", .s "XAUUSD")]

theorem relational_update_preserves_immutables_witness :
    [c5rrow][0]? = some c5rrow ∧
    ∃ r2, ((realPatchTrade ⟨true, true, true⟩ [c5rrow]
        { userId := "u1", role := "student" } "t1" c5rupd 7).rows)[0]? = some r2 ∧
      r2.id = c5rrow.id ∧ r2.user_id = c5rrow.user_id ∧
      r2.created_at = c5rrow.created_at :=
  ⟨rfl, relational_update_preserves_immutables ⟨true, true, true⟩ [c5rrow]
    { userId := "u1", role := "student" } "t1" c5rupd 7 0 c5rrow rfl⟩

/-! ### C6 -/

def c6caller : Caller := { userId := "u1", role := "student" }

def c6body : TradeBody :=
  { asset := some "EURUSD", direction := some "long", entry := some 100, sl := some 99 }

def c6res : MPostResult := mockPostTrade { users := [], trades := [] } c6caller c6body

/-- C6, code bug: in mock mode neither the POST /api/trades handler nor
MockDatabase.createTrade assigns an id or timestamps; the stored trade
has none of them, so it can never be fetched (or updated or deleted) by
any id afterwards, although the creation succeeds with 201. The real-DB
handler, by contrast, generates the id and the timestamps itself. -/
theorem mock_create_trade_missing_id_bug :
    c6res.status = 201 ∧
    c6res.st.trades.map (·.id) = [none] ∧
    c6res.st.trades.map (·.created_at) = [none] ∧
    c6res.st.trades.map (·.updated_at) = [none] ∧
    (∀ s : String, mockFindTradeById c6res.st s = none) ∧
    (∀ tid : String, (realPostTrade ⟨true, true, true⟩ [] c6caller c6body tid 7).rows.map
      (·.id) = [SVal.s tid]) := by
  refine ⟨by decide, by decide, by decide, by decide, fun s => rfl, fun tid => rfl⟩

/-! ### C7 -/

/-- The pagination object of a response, when the envelope shape was
used. -/
def respPagination : ListResp α → Option Pagination
  | .bare _ => none
  | .paged _ pg => some pg

/-- C7: when page or limit is supplied, the list endpoints answer with
the envelope whose items are the slice of length limit starting at
(page-1)*limit of the filtered sequence, whose total counts that
sequence and whose totalPages is the ceiling of total/limit; without
pagination parameters the bare array of the filtered sequence is
returned. Stated for GET /api/trades and GET /api/users in mock mode. -/
theorem list_pagination_shape (st : MockState) (caller uc : Caller) (q : Query)
    (huc : uc.role = "admin" ∨ uc.role = "coach") :
    (usePagination q = true →
      ∃ items pg, mockGetTrades st caller q = .paged items pg ∧
        pg.page = effPage q ∧ pg.limit = effLimit q ∧
        pg.total = (visibleTrades st caller q).length ∧
        pg.totalPages = (pg.total + pg.limit - 1) / pg.limit ∧
        items.length = min pg.limit (pg.total - (pg.page - 1) * pg.limit) ∧
        ∀ j : Nat, items[j]? =
          if j < pg.limit then
            (visibleTrades st caller q)[(pg.page - 1) * pg.limit + j]?
          else none) ∧
    (usePagination q = false →
      mockGetTrades st caller q = .bare (visibleTrades st caller q)) ∧
    (usePagination q = true →
      ∃ items pg, mockGetUsers st uc q = .ok (.paged items pg) ∧
        pg.page = effPage q ∧ pg.limit = effLimit q ∧
        pg.total = (visibleUsers st q).length ∧
        pg.totalPages = (pg.total + pg.limit - 1) / pg.limit ∧
        ∀ j : Nat, items[j]? =
          if j < pg.limit then (visibleUsers st q)[(pg.page - 1) * pg.limit + j]?
          else none) ∧
    (usePagination q = false →
      mockGetUsers st uc q = .ok (.bare (visibleUsers st q))) := by
  have hgate : (!(uc.role == "admin" || uc.role == "coach")) = false := by
    rcases huc with h | h <;> simp [h]
  refine ⟨?_, ?_, ?_, ?_⟩
  · intro hp
    obtain ⟨items, pg, heq, h1, h2, h3, h4, h5, h6⟩ :=
      paginate_spec q (visibleTrades st caller q) hp
    exact ⟨items, pg, heq, h1, h2, h3, by rw [h4, h3], by rw [h5, h3], h6⟩
  · intro hp
    unfold mockGetTrades paginate
    simp [hp]
  · intro hp
    obtain ⟨items, pg, heq, h1, h2, h3, h4, _h5, h6⟩ :=
      paginate_spec q (visibleUsers st q) hp
    refine ⟨items, pg, ?_, h1, h2, h3, by rw [h4, h3], h6⟩
    unfold mockGetUsers
    rw [hgate]
    simp only [Bool.false_eq_true, if_false, heq]
  · intro hp
    unfold mockGetUsers
    rw [hgate]
    simp only [Bool.false_eq_true, if_false]
    unfold paginate
    simp [hp]

def c7trades : List MTrade :=
  (List.range 120).map (fun i => { userId := some "u1", entry := some (i : Int) })

def c7st : MockState := { trades := c7trades }

def c7caller : Caller := { userId := "u1", role := "student" }

def c7q : Query := { page := some 2, limit := some 50 }

theorem list_pagination_shape_witness :
    usePagination c7q = true ∧
    respPagination (mockGetTrades c7st c7caller c7q) = some ⟨2, 50, 120, 3⟩ ∧
    (mockGetTrades c7st c7caller c7q).items.length = 50 ∧
    (mockGetTrades c7st c7caller c7q).items[0]? = c7trades[50]? ∧
    (mockGetTrades c7st c7caller c7q).items[49]? = c7trades[99]? ∧
    (mockGetTrades c7st c7caller c7q).items[50]? = none := by
  obtain ⟨items, pg, heq, hpage, hlimit, htotal, htp, hlen, hj⟩ :=
    (list_pagination_shape c7st c7caller ⟨"a0", "", "admin"⟩ c7q (Or.inl rfl)).1 rfl
  have hvis : visibleTrades c7st c7caller c7q = c7trades := by decide
  have ha : pg.page = 2 := hpage
  have hb : pg.limit = 50 := hlimit
  have hc : pg.total = 120 := by rw [htotal, hvis]; rfl
  have hd : pg.totalPages = 3 := by rw [htp, hb, hc]
  have hpgval : pg = ⟨2, 50, 120, 3⟩ := by
    obtain ⟨a, b, c, d⟩ := pg
    simp only at ha hb hc hd
    rw [ha, hb, hc, hd]
  have hitems : (mockGetTrades c7st c7caller c7q).items = items := by
    rw [heq]
    rfl
  refine ⟨rfl, ?_, ?_, ?_, ?_, ?_⟩
  · rw [heq, hpgval]
    rfl
  · rw [hitems, hlen, ha, hb, hc]
    decide
  · rw [hitems, hj 0, hb, ha, hvis]
    rfl
  · rw [hitems, hj 49, hb, ha, hvis]
    rfl
  · rw [hitems, hj 50, hb]
    rfl

/-! ### C8 -/

def c8sc : Schema := { hasChartBefore := false, hasChartAfter := false, hasReviewedBy := false }

def c8row : RTrade := { id := .s "t1", user_id := .s "u1" }

def c8caller : Caller := { userId := "u9", role := "admin" }

/-- C8 counterexample: when the whole SET clause is stripped after
ER_BAD_FIELD_ERROR, PATCH /api/trades/:id answers 400 No fields to
update, not 500 as the claim states. -/
theorem strip_retry_empty_surfaces_400_cx :
    (realPatchTrade c8sc [c8row] c8caller "t1" [("reviewed_by", .s "coach-1")] 0).status
      = 400 ∧
    ¬((realPatchTrade c8sc [c8row] c8caller "t1" [("reviewed_by", .s "coach-1")] 0).status
      = 500) := by
  decide

/-- C8, amended: an unknown-column failure on a relational trade write is
retried at most once with the schema-optional fields (reviewed_by and
both chart url columns) stripped — at most two statements ever execute
per operation, for the PATCH update and for the POST insert alike; when
the reduced SET clause is empty the operation fails as 400 No fields to
update (not 500), leaving the table unchanged; when it is nonempty the
retried statement applies exactly the stripped entry set, which contains
none of the schema-optional columns. -/
theorem strip_and_retry_amended (sc : Schema) (rows : List RTrade) (caller : Caller)
    (tid : String) (upd : List (String × SVal)) (now : Int) (b : TradeBody)
    (rid : String) :
    (realPatchTrade sc rows caller tid upd now).attempts ≤ 2 ∧
    (realPostTrade sc rows caller b rid now).attempts ≤ 2 ∧
    (∀ tr, rows.find? (·.id == SVal.s tid) = some tr →
      (caller.role == "student" && tr.user_id != SVal.s caller.userId) = false →
      (patchEntries upd).length ≠ 0 →
      (patchEntries upd).all (fun e => colInSchema sc e.column) = false →
      ((stripOptional (patchEntries upd) = [] →
        realPatchTrade sc rows caller tid upd now =
          { status := 400, rows := rows, attempts := 1, applied := [] }) ∧
       ((stripOptional (patchEntries upd)).length ≠ 0 →
        (realPatchTrade sc rows caller tid upd now).attempts = 2 ∧
        ((realPatchTrade sc rows caller tid upd now).status = 200 →
          (realPatchTrade sc rows caller tid upd now).applied =
            (stripOptional (patchEntries upd)).map (fun e => e.column) ∧
          ∀ c ∈ (realPatchTrade sc rows caller tid upd now).applied,
            c ≠ "reviewed_by" ∧ c ≠ "chart_before_url" ∧ c ≠ "chart_after_url")))) := by
  refine ⟨?_, ?_, ?_⟩
  · unfold realPatchTrade
    split
    · norm_num
    · split
      · norm_num
      · split
        · norm_num
        · split
          · norm_num
          · split
            · norm_num
            · split <;> norm_num
  · unfold realPostTrade
    split
    · norm_num
    · split
      · norm_num
      · split <;> norm_num
  · intro tr htr hown hne hbad
    have hres : realPatchTrade sc rows caller tid upd now =
        (if (stripOptional (patchEntries upd)).length = 0 then
          { status := 400, rows := rows, attempts := 1, applied := [] }
        else if (stripOptional (patchEntries upd)).all
            (fun e => colInSchema sc e.column) then
          { status := 200, rows := doUpdate rows tid (stripOptional (patchEntries upd)) now,
            attempts := 2,
            applied := (stripOptional (patchEntries upd)).map (fun e => e.column) }
        else { status := 500, rows := rows, attempts := 2, applied := [] }) := by
      unfold realPatchTrade
      rw [htr]
      simp only [hown, Bool.false_eq_true, if_false, hne, hbad]
    constructor
    · intro hempty
      rw [hres]
      simp [hempty]
    · intro hsne
      have hcols : ∀ c ∈ (stripOptional (patchEntries upd)).map (fun e => e.column),
          c ≠ "reviewed_by" ∧ c ≠ "chart_before_url" ∧ c ≠ "chart_after_url" := by
        intro c hc
        rcases List.mem_map.mp hc with ⟨e, he, hce⟩
        have hfil := (List.mem_filter.mp he).2
        simp only [Bool.and_eq_true, Bool.not_eq_true'] at hfil
        have hnc := hfil.2
        subst hce
        refine ⟨?_, ?_, ?_⟩ <;> intro hceq <;> rw [hceq] at hnc <;> exact absurd hnc (by decide)
      have hsne2 : ¬((stripOptional (patchEntries upd)).length = 0) := hsne
      rw [hres, if_neg hsne2]
      by_cases hsall : ((stripOptional (patchEntries upd)).all
          (fun e => colInSchema sc e.column)) = true
      · rw [if_pos hsall]
        exact ⟨rfl, fun _ => ⟨rfl, hcols⟩⟩
      · rw [if_neg hsall]
        exact ⟨rfl, fun h => by simp at h⟩

def c8upd2 : List (String × SVal) := [("asset", .s "XAUUSD"), ("reviewed_by", .s "c1")]

theorem strip_and_retry_amended_witness :
    [c8row].find? (·.id == SVal.s "t1") = some c8row ∧
    (c8caller.role == "student" && c8row.user_id != SVal.s c8caller.userId) = false ∧
    (patchEntries c8upd2).length ≠ 0 ∧
    (patchEntries c8upd2).all (fun e => colInSchema c8sc e.column) = false ∧
    (stripOptional (patchEntries c8upd2)).length ≠ 0 ∧
    (realPatchTrade c8sc [c8row] c8caller "t1" c8upd2 0).attempts = 2 :=
  ⟨by decide, by decide, by decide, by decide, by decide,
    (((strip_and_retry_amended c8sc [c8row] c8caller "t1" c8upd2 0 {} "r1").2.2
      c8row (by decide) (by decide) (by decide) (by decide)).2 (by decide)).1⟩

/-! ### C9 -/

def c9row : RTrade :=
  { id := .s "t1", user_id := .s "u1", created_at := .n 0,
    chart_before_url := .s "img-data" }

/-- C9 counterexample: a trade created exactly 7 days before the sweep
(604800 seconds) is not more than 7 days old, yet one retention-job
invocation nulls its chart fields: the SQL comparison is
created_at at most now minus 7 days, not strictly older than 7 days. -/
theorem retention_boundary_cx :
    ¬((604800 : Int) - 0 > 604800) ∧
    c9row.chart_before_url = .s "img-data" ∧
    imageCleanupJob 604800 [c9row] ≠ [c9row] ∧
    (imageCleanupJob 604800 [c9row]).map (fun r => r.chart_before_url) = [SVal.null] := by
  refine ⟨by decide, rfl, by decide, by decide⟩

/-- Whether the row is at least 7 days old at the sweep instant (the
amended age condition: created_at plus the 7-day window has passed). -/
def rowAgedOut (now : Int) (r : RTrade) : Bool :=
  match r.created_at with
  | .n t => t + 604800 ≤ now
  | _ => false

/-- Whether the row still carries chart data in either column. -/
def rowHasChart (r : RTrade) : Bool :=
  r.chart_before_url != SVal.null || r.chart_after_url != SVal.null

/-- The effect of the sweep on a selected row: both chart columns
nulled, updated_at stamped. -/
def scrubCharts (now : Int) (r : RTrade) : RTrade :=
  { r with chart_before_url := .null, chart_after_url := .null, updated_at := .n now }

/-- C9, amended: one retention-job invocation nulls both chart fields and
stamps updated_at on exactly those trades that are at least 7 days old
(created_at at most now minus 7 days) and still carry chart data; every
other trade, such as a 6-day-old one or an old one whose chart fields
are both already null, is returned unchanged. -/
theorem retention_amended (now : Int) (rows : List RTrade) (i : Nat) (r : RTrade)
    (hr : rows[i]? = some r) :
    ((rowAgedOut now r && rowHasChart r) = true →
      (imageCleanupJob now rows)[i]? = some (scrubCharts now r)) ∧
    ((rowAgedOut now r && rowHasChart r) = false →
      (imageCleanupJob now rows)[i]? = some r) := by
  have hmap : (imageCleanupJob now rows)[i]? = some (cleanupRow now r) := by
    unfold imageCleanupJob
    rw [List.getElem?_map, hr]
    rfl
  have hcond : ((match r.created_at with
      | SVal.n t => decide (t ≤ now - 604800)
      | _ => false) && (r.chart_before_url != SVal.null ||
        r.chart_after_url != SVal.null)) = (rowAgedOut now r && rowHasChart r) := by
    unfold rowAgedOut rowHasChart
    congr 1
    rcases r.created_at with v | t | _
    · rfl
    · simp only [decide_eq_decide]
      omega
    · rfl
  constructor
  · intro htrue
    rw [hmap]
    unfold cleanupRow
    rw [hcond, htrue]
    rfl
  · intro hfalse
    rw [hmap]
    unfold cleanupRow
    rw [hcond, hfalse]
    rfl

def c9oldRow : RTrade :=
  { id := .s "t-old", user_id := .s "u1", created_at := .n 0,
    chart_after_url := .s "img2" }

def c9youngRow : RTrade :=
  { id := .s "t-young", user_id := .s "u1", created_at := .n 604800,
    chart_before_url := .s "img3" }

theorem retention_amended_witness :
    [c9oldRow, c9youngRow][0]? = some c9oldRow ∧
    [c9oldRow, c9youngRow][1]? = some c9youngRow ∧
    (rowAgedOut 691200 c9oldRow && rowHasChart c9oldRow) = true ∧
    (rowAgedOut 691200 c9youngRow && rowHasChart c9youngRow) = false ∧
    (imageCleanupJob 691200 [c9oldRow, c9youngRow])[0]? =
      some (scrubCharts 691200 c9oldRow) ∧
    (imageCleanupJob 691200 [c9oldRow, c9youngRow])[1]? = some c9youngRow :=
  ⟨rfl, rfl, by decide, by decide,
    (retention_amended 691200 [c9oldRow, c9youngRow] 0 c9oldRow rfl).1 (by decide),
    (retention_amended 691200 [c9oldRow, c9youngRow] 1 c9youngRow rfl).2 (by decide)⟩

/-! ### C10 -/

/-- C10: authorization on protected routes is a function of the bearer
token alone. The verifyToken middleware reads only the token signature
and expiry, never the store, so the authenticated identity is identical
across any two store states; in particular a token issued before a role
change or a user deletion keeps yielding the old embedded role until its
7-day expiry passes. -/
theorem token_auth_store_independent :
    (∀ (s1 s2 : MockState) (t : Token) (now secret : Nat),
      authenticateRequest s1 t now secret = authenticateRequest s2 t now secret) ∧
    (∀ (st : MockState) (uid em role : String) (t0 now secret : Nat)
        (targetId newRole : String), now < t0 + 7 * 86400 →
      authenticateRequest (mockUpdateUserRole st targetId newRole)
          (generateToken uid em role t0 secret) now secret =
        some { userId := uid, email := em, role := role } ∧
      authenticateRequest (mockDeleteUser st targetId)
          (generateToken uid em role t0 secret) now secret =
        some { userId := uid, email := em, role := role }) := by
  constructor
  · intro s1 s2 t now secret
    rfl
  · intro st uid em role t0 now secret targetId newRole hexp
    have : authenticateRequest st (generateToken uid em role t0 secret) now secret =
        some { userId := uid, email := em, role := role } := by
      unfold authenticateRequest verifyTokenClaims generateToken
      simp [hexp]
    exact ⟨this, this⟩

def c10st : MockState :=
  { users := [{ id := "u1", name := "Root", email := "root@example.com",
                password_hash := bhash "rootpw", role := "admin",
                status := "approved" }] }

theorem token_auth_store_independent_witness :
    (0 : Nat) < 100 + 7 * 86400 ∧
    (mockUpdateUserRole c10st "u1" "student").users.map (·.role) = ["student"] ∧
    authenticateRequest (mockUpdateUserRole c10st "u1" "student")
        (generateToken "u1" "root@example.com" "admin" 100 42) 0 42 =
      some { userId := "u1", email := "root@example.com", role := "admin" } ∧
    authenticateRequest (mockDeleteUser c10st "u1")
        (generateToken "u1" "root@example.com" "admin" 100 42) 0 42 =
      some { userId := "u1", email := "root@example.com", role := "admin" } :=
  ⟨by decide, by decide,
    (token_auth_store_independent.2 c10st "u1" "root@example.com" "admin" 100 0 42
      "u1" "student" (by decide)).1,
    (token_auth_store_independent.2 c10st "u1" "root@example.com" "admin" 100 0 42
      "u1" "student" (by decide)).2⟩

end Uptrade
